import Mathlib

/-!
Verification of the FinGuard scanner bridge (Go sources `scanner.go` and
`s3scanner.go`) against its natural-language specification.

The Go code is shallowly embedded: pure fragments become Lean functions,
library calls (JSON decoding, the AWS store, the scanning SDK) become
explicit parameters, and the per-request mutation of the shared SDK client
becomes explicit state passing.  JSON numbers are decoded by Go into
`float64`; the fields inspected here (`malwareCount`) are integral counts,
so numbers are modelled as `Int`.
-/

/-- A decoded JSON value, as produced by Go's `json.Unmarshal` into
`interface\x7b\x7d`: `nil`, `bool`, `float64` (modelled as `Int`), `string`,
`[]interface\x7b\x7d`, or `map[string]interface\x7b\x7d` (modelled as an
association list with distinct keys). -/
inductive JValue where
  | null : JValue
  | bool (b : Bool) : JValue
  | num (n : Int) : JValue
  | str (s : String) : JValue
  | arr (elems : List JValue) : JValue
  | obj (fields : List (String × JValue)) : JValue

/-- A decoded top-level JSON object (`map[string]interface\x7b\x7d`). -/
abbrev JObj := List (String × JValue)

/-- Key lookup in a decoded JSON object (Go map indexing `m[k]`). -/
def jLookup : JObj → String → Option JValue
  | [], _ => none
  | (k, v) :: rest, key => if k = key then some v else jLookup rest key

/-- The Go type assertion `v.(map[string]interface\x7b\x7d)`. -/
def asObj : JValue → Option JObj
  | .obj fields => some fields
  | _ => none

/-- The Go type assertion `v.([]interface\x7b\x7d)`. -/
def asArr : JValue → Option (List JValue)
  | .arr elems => some elems
  | _ => none

/-- The Go type assertion `v.(float64)`, on the integral counts used here. -/
def asNum : JValue → Option Int
  | .num n => some n
  | _ => none

/-- The Go type assertion `v.(string)`. -/
def asStr : JValue → Option String
  | .str s => some s
  | _ => none

/-- `scanner.go` lines 240-241: the nested `result.atse` engine substructure,
present only when `scanData["result"]` and `result["atse"]` are both maps. -/
def atseOf (scanData : JObj) : Option JObj :=
  ((jLookup scanData "result").bind asObj).bind fun resultObj =>
    (jLookup resultObj "atse").bind asObj

/-- `scanner.go` lines 242-244: the value of `isSafe` after the verbose/nested
block, starting from the default `true`; set to `false` exactly when
`result.atse.malwareCount` is a number greater than zero. -/
def verboseSafe (scanData : JObj) : Bool :=
  match atseOf scanData with
  | some atse =>
    match (jLookup atse "malwareCount").bind asNum with
    | some malwareCount => if 0 < malwareCount then false else true
    | none => true
  | none => true

/-- `scanner.go` lines 248-257: the malware names collected from the nested
`result.atse.malware` array.  Collected whenever the `atse` substructure and
the array are present, independently of `malwareCount`. -/
def nestedNames (scanData : JObj) : List String :=
  match atseOf scanData with
  | some atse =>
    match (jLookup atse "malware").bind asArr with
    | some malwares =>
      malwares.filterMap fun m =>
        (asObj m).bind fun mMap => (jLookup mMap "name").bind asStr
    | none => []
  | none => []

/-- `scanner.go` line 262: the guard of the legacy block — `foundMalwares`
is present, is an array, and is non-empty. -/
def legacyFires (scanData : JObj) : Bool :=
  match (jLookup scanData "foundMalwares").bind asArr with
  | some fms => decide (0 < fms.length)
  | none => false

/-- `scanner.go` lines 264-271: the malware names collected from the legacy
top-level `foundMalwares` array (collected only inside the non-empty guard;
an empty or absent array contributes nothing). -/
def legacyNames (scanData : JObj) : List String :=
  match (jLookup scanData "foundMalwares").bind asArr with
  | some fms =>
    if 0 < fms.length then
      fms.filterMap fun m =>
        (asObj m).bind fun mMap => (jLookup mMap "malwareName").bind asStr
    else []
  | none => []

/-- The part of the `/scan` handler's response determined by result
normalization (`scanner.go` lines 228-282). -/
structure ScanOutcome where
  isSafe : Bool
  tags : List String
  message : String
  detections : String
deriving DecidableEq

/-- Result normalization in the `/scan` handler, `scanner.go` lines 228-282.
`raw` is the backend's response string; `parsed` is the outcome of
`json.Unmarshal` into a `map[string]interface\x7b\x7d` (`none` when the string
does not decode as a JSON object); `tags0` is the tag list built before the
scan.  `isSafe` defaults to `true`; the verbose/nested path and the legacy
flat path are then applied in source order, appending `malware_name=` tags;
`Message` and `Detections` always carry the raw response string. -/
def normalizeScanResult (raw : String) (parsed : Option JObj) (tags0 : List String) :
    ScanOutcome :=
  match parsed with
  | none => { isSafe := true, tags := tags0, message := raw, detections := raw }
  | some scanData =>
    let safeAfterVerbose := verboseSafe scanData
    let tagsAfterVerbose :=
      tags0 ++ (nestedNames scanData).map (fun n => "malware_name=" ++ n)
    let finalSafe := if legacyFires scanData then false else safeAfterVerbose
    let finalTags :=
      tagsAfterVerbose ++ (legacyNames scanData).map (fun n => "malware_name=" ++ n)
    { isSafe := finalSafe, tags := finalTags, message := raw, detections := raw }

/-- Specification-side predicate: the verbose/nested path indicates malware,
i.e. `result.atse.malwareCount` is a number greater than zero. -/
def verboseFires (scanData : JObj) : Bool :=
  match atseOf scanData with
  | some atse =>
    match (jLookup atse "malwareCount").bind asNum with
    | some malwareCount => decide (0 < malwareCount)
    | none => false
  | none => false

theorem verboseSafe_eq_not_verboseFires (scanData : JObj) :
    verboseSafe scanData = !verboseFires scanData := by
  unfold verboseSafe verboseFires
  cases h : atseOf scanData with
  | none => rfl
  | some atse =>
    cases hc : (jLookup atse "malwareCount").bind asNum with
    | none => simp [hc]
    | some malwareCount =>
      simp only [hc]
      by_cases hlt : 0 < malwareCount <;> simp [hlt]

/-! ## Tag construction in the `/scan` handler -/

/-- Go's `filepath.Ext`: the suffix of the path beginning at the final dot
after the final path separator, empty when there is no such dot.  Helper
walking the reversed character list. -/
def extAux : List Char → List Char → String
  | [], _ => ""
  | c :: rest, acc =>
    if c = '/' then ""
    else if c = '.' then String.mk (c :: acc)
    else extAux rest (c :: acc)

/-- Go's `filepath.Ext path` (`scanner.go` line 184). -/
def extOf (path : String) : String :=
  extAux path.toList.reverse []

/-- `scanner.go` lines 182-189, the machine-derived tag prefix: application
tag, file-extension tag, scan-method tag, and the raw header values of the
PML, SPN-feedback and active-content toggles. -/
def machineTags (filename scanMethod pmlHdr spnHdr activeContentHdr : String) :
    List String :=
  ["app=finguard",
   "file_type=" ++ extOf filename,
   "scan_method=" ++ scanMethod,
   "ml_enabled=" ++ pmlHdr,
   "spn_feedback=" ++ spnHdr,
   "active_content=" ++ activeContentHdr]

/-- The full backend-bound tag list built by the `/scan` handler
(`scanner.go` lines 181-189): the machine-derived prefix followed by the
caller-supplied custom tags.  The digest and verbose header values are in
scope in the handler but do not occur in the tag construction. -/
def requestTags (filename scanMethod digestHdr pmlHdr spnHdr verboseHdr
    activeContentHdr : String) (customTags : List String) : List String :=
  machineTags filename scanMethod pmlHdr spnHdr activeContentHdr ++ customTags

/-! ## Backend selection at startup (`scanner.go` `main`, lines 51-111) -/

/-- The two scanning backends `main` can construct. -/
inductive Backend where
  | externalScanner (addr : String) (useTLS : Bool) : Backend
  | cloudSdk (apiKey region : String) : Backend
deriving DecidableEq

/-- Backend selection in `main` (`scanner.go` lines 80-108): a non-empty
`SCANNER_EXTERNAL_ADDR` selects the external gRPC scanner; otherwise an
empty `FSS_API_KEY` is the fatal error `log.Fatal`, and a non-empty key
selects the cloud SDK backend. -/
def resolveBackend (apiKey region externalAddr : String) (useTLS : Bool) :
    Except String Backend :=
  if externalAddr ≠ "" then .ok (.externalScanner externalAddr useTLS)
  else if apiKey = "" then
    .error "FSS_API_KEY must be set when not using external scanner"
  else .ok (.cloudSdk apiKey region)

/-- Outcome of `main`: either the process exits fatally before any session
or server exists (`log.Fatal`), or the HTTP server is started with the
constructed backend and its endpoint descriptor. -/
inductive StartupOutcome where
  | fatalExit (msg : String) : StartupOutcome
  | running (backend : Backend) (endpoint : String) : StartupOutcome
deriving DecidableEq

/-- `main` (`scanner.go` lines 51-111): resolve the backend from the
environment, then start the HTTP server with `endpoint` set to the external
address in external mode and to the region in cloud mode. -/
def mainStartup (apiKey region externalAddr : String) (useTLS : Bool) :
    StartupOutcome :=
  match resolveBackend apiKey region externalAddr useTLS with
  | .error msg => .fatalExit msg
  | .ok backend =>
    .running backend
      (match backend with
       | .externalScanner addr _ => addr
       | .cloudSdk _ region => region)

/-! ## Per-request toggle mutation of the shared SDK client
(`scanner.go` lines 140-176) -/

/-- The toggle state of the process-wide SDK client.  SDK defaults: digest
enabled (so `digestDisabled = false`), all other toggles disabled. -/
structure ClientToggles where
  digestDisabled : Bool
  pmlEnabled : Bool
  feedbackEnabled : Bool
  verboseEnabled : Bool
  activeContentEnabled : Bool
deriving DecidableEq

/-- The five toggle header values of one `/scan` request. -/
structure ScanHeaders where
  digestHdr : String
  pmlHdr : String
  spnHdr : String
  verboseHdr : String
  activeContentHdr : String

/-- `scanner.go` lines 140-176: the handler mutates the shared client once
per request — `SetDigestDisable` when the digest header is `"false"`, and
`SetPMLEnable` / `SetFeedbackEnable` / `SetVerboseEnable` /
`SetActiveContentEnable` when the corresponding header is `"true"`.  No
branch ever clears an enabled toggle or re-enables digest. -/
def applyToggleHeaders (c : ClientToggles) (h : ScanHeaders) : ClientToggles :=
  let c1 := if h.digestHdr = "false" then { c with digestDisabled := true } else c
  let c2 := if h.pmlHdr = "true" then { c1 with pmlEnabled := true } else c1
  let c3 := if h.spnHdr = "true" then { c2 with feedbackEnabled := true } else c2
  let c4 := if h.verboseHdr = "true" then { c3 with verboseEnabled := true } else c3
  if h.activeContentHdr = "true" then { c4 with activeContentEnabled := true } else c4

/-- The client state after a sequence of `/scan` requests, each applying its
toggle headers to the single shared client. -/
def processScanSequence (c : ClientToggles) : List ScanHeaders → ClientToggles
  | [] => c
  | h :: rest => processScanSequence (applyToggleHeaders c h) rest

/-! ## Health endpoint (`scanner.go` lines 296-318) -/

/-- The `/health` response body. -/
structure HealthResponse where
  status : String
  timestamp : String
  customTags : List String
  apiEndpoint : String
deriving DecidableEq

/-- The `/health` handler (`scanner.go` lines 296-318): status is
`"unhealthy"` exactly when the client pointer is nil, the HTTP code is 200
for `"healthy"` and 503 otherwise, and the body always carries the current
timestamp, the custom tags and the active endpoint descriptor. -/
def healthHandler (clientIsNil : Bool) (now : String) (customTags : List String)
    (endpoint : String) : Nat × HealthResponse :=
  let status := if clientIsNil then "unhealthy" else "healthy"
  ((if status = "healthy" then 200 else 503),
   { status := status, timestamp := now, customTags := customTags,
     apiEndpoint := endpoint })

/-! ## The S3 ranged content provider (`s3scanner.go`) -/

/-- The provider state (`S3ClientReader`, `s3scanner.go` lines 36-41): the
store handle is a parameter of the operations; the cached size is fixed at
construction. -/
structure S3ClientReader where
  bucket : String
  key : String
  size : Int
deriving DecidableEq

/-- One underlying `GetObject` byte-range fetch issued against the store. -/
structure S3FetchCall where
  bucket : String
  key : String
  rangeHeader : String
deriving DecidableEq

/-- The store's reply to one fetch: the `GetObject` call itself may fail, and
otherwise reading the response body yields bytes or a transfer error
(`io.ReadAll` never returns `io.EOF`, so the `err != io.EOF` comparison in
the source is vacuous). -/
inductive StoreResp where
  | fetchErr (e : String) : StoreResp
  | body (read : Except String (List Nat)) : StoreResp

/-- The range header string built at `s3scanner.go` line 110:
`bytes=offset-(offset+length-1)`. -/
def mkRangeHeader (offset length : Int) : String :=
  "bytes=" ++ toString offset ++ "-" ++ toString (offset + length - 1)

/-- `s3scanner.go` lines 72-87 inside `NewS3ClientReader`: `cfgLoad` is the
outcome of loading the AWS config, `attrResult` the outcome of the single
`GetObjectAttributes` metadata call (`none` for a nil `ObjectSize`).
Construction fails when either fails or the size is missing; on success the
size is cached in the returned provider. -/
def NewS3ClientReader (cfgLoad : Except String Unit) (bucket key : String)
    (attrResult : Except String (Option Int)) : Except String S3ClientReader :=
  match cfgLoad with
  | .error e => .error e
  | .ok _ =>
    match attrResult with
    | .error e => .error e
    | .ok none => .error "unable to get object size from S3"
    | .ok (some sz) => .ok { bucket := bucket, key := key, size := sz }

/-- `s3scanner.go` lines 99-101. -/
def Identifier (r : S3ClientReader) : String :=
  "s3://" ++ r.bucket ++ "/" ++ r.key

/-- `s3scanner.go` lines 104-106: return the cached size, never an error. -/
def DataSize (r : S3ClientReader) : Except String Int :=
  .ok r.size

/-- `ReadBytes` (`s3scanner.go` lines 109-128): build the range header, issue
one `GetObject` fetch against the store, and read the body.  Returns the
list of fetches issued (for counting) alongside the result; the cached size
is never consulted. -/
def ReadBytes (store : S3FetchCall → StoreResp) (r : S3ClientReader)
    (offset length : Int) : List S3FetchCall × Except String (List Nat) :=
  let call : S3FetchCall :=
    { bucket := r.bucket, key := r.key, rangeHeader := mkRangeHeader offset length }
  ([call],
   match store call with
   | .fetchErr e => .error e
   | .body (.error e) => .error ("error reading S3 object body: " ++ e)
   | .body (.ok bs) => .ok bs)

/-! ## Tagging in the S3 scan handler (`s3scanner.go` lines 381-387) -/

/-- `handleScanS3Object`, `s3scanner.go` lines 381-387: the caller-supplied
tag list (`none` for a nil slice) with `"source:s3"` appended, or exactly
`["source:s3"]` when the caller supplied none. -/
def s3ScanTags (reqTags : Option (List String)) : List String :=
  match reqTags with
  | none => ["source:s3"]
  | some ts => ts ++ ["source:s3"]

/-! ## Claims about result normalization -/

/-- Claim C1: for every backend response string that does not decode as a
JSON object, the `/scan` handler's verdict is safe with the tag list left
exactly as built before the scan (no `malware_name=` tag added), and the raw
response string is carried unchanged in both the `Message` and `Detections`
fields; an unparseable payload is never an error and never unsafe. -/
theorem C1_unparseable_fail_open (raw : String) (tags0 : List String) :
    normalizeScanResult raw none tags0 =
      { isSafe := true, tags := tags0, message := raw, detections := raw } := rfl

/-- A concrete parsed payload whose nested `malwareCount` is zero (so the
verbose path does not indicate malware) and which has no `foundMalwares`
list, yet whose nested `malware` array carries a name. -/
def zeroCountPayload : JObj :=
  [("result", .obj
     [("atse", .obj
        [("malwareCount", .num 0),
         ("malware", .arr [.obj [("name", .str "Eicar_test_file")]])])])]

/-- Claim C2 is false as stated: on `zeroCountPayload` neither the verbose
path (`malwareCount = 0`) nor the legacy path (no `foundMalwares`) indicates
malware, and the verdict is indeed safe, yet a `malware_name=` tag is
collected — the collected names are not the union of the names from the
paths that fired (none fired), and the payload does not yield "no malware
names". -/
theorem C2_counterexample :
    verboseFires zeroCountPayload = false ∧
    legacyFires zeroCountPayload = false ∧
    (normalizeScanResult "raw" (some zeroCountPayload) []).isSafe = true ∧
    (normalizeScanResult "raw" (some zeroCountPayload) []).tags =
      ["malware_name=Eicar_test_file"] := by
  refine ⟨rfl, rfl, rfl, rfl⟩

/-- Claim C2 as amended: the verbose nested path and the legacy flat path
are evaluated additively — either one independently makes the verdict
unsafe, and the verdict is safe exactly when neither fires.  The collected
malware-name tags are the names from the nested `result.atse.malware` array
whenever that structure is present (regardless of whether the nested count
indicates malware), followed by the names from a non-empty legacy
`foundMalwares` list, appended in that order after the pre-scan tags. -/
theorem C2_additive_paths (scanData : JObj) (raw : String) (tags0 : List String) :
    (normalizeScanResult raw (some scanData) tags0).isSafe =
      !(verboseFires scanData || legacyFires scanData) ∧
    (normalizeScanResult raw (some scanData) tags0).tags =
      tags0 ++ (nestedNames scanData ++ legacyNames scanData).map
        (fun n => "malware_name=" ++ n) := by
  constructor
  · show (if legacyFires scanData then false else verboseSafe scanData) = _
    cases h : legacyFires scanData <;>
      simp [h, verboseSafe_eq_not_verboseFires]
  · show tags0 ++ (nestedNames scanData).map (fun n => "malware_name=" ++ n) ++
        (legacyNames scanData).map (fun n => "malware_name=" ++ n) = _
    simp [List.map_append, List.append_assoc]

/-! ## Claims about backend selection and startup -/

/-- Claim C3: whenever the external scanner address is non-empty, backend
resolution yields the external gRPC backend — even when a cloud API key is
also present — and the cloud backend is obtained only when the external
address is empty. -/
theorem C3_external_precedence (apiKey region addr : String) (useTLS : Bool) :
    (addr ≠ "" →
      resolveBackend apiKey region addr useTLS = .ok (.externalScanner addr useTLS)) ∧
    (∀ k r, resolveBackend apiKey region addr useTLS = .ok (.cloudSdk k r) →
      addr = "") := by
  constructor
  · intro h
    simp [resolveBackend, h]
  · intro k r h
    by_cases ha : addr = ""
    · exact ha
    · simp [resolveBackend, ha] at h

/-- Witness for C3 at a concrete configuration in which both an external
address and a cloud API key are present. -/
theorem C3_external_precedence_witness :
    resolveBackend "key-123" "us-1" "scanner.local:50051" true =
      .ok (.externalScanner "scanner.local:50051" true) :=
  (C3_external_precedence "key-123" "us-1" "scanner.local:50051" true).1 (by decide)

/-- Claim C4 is false as stated: two requests whose digest and verbose
toggles differ (all else equal) produce the identical backend-bound tag
list, so the tag list cannot include the boolean state of every toggle — the
digest and verbose states are not recorded in any tag. -/
theorem C4_counterexample :
    requestTags "report.pdf" "buffer" "false" "true" "true" "false" "true"
      ["team=sec"] =
    requestTags "report.pdf" "buffer" "true" "true" "true" "true" "true"
      ["team=sec"] := rfl

/-- Claim C4 as amended: for every scan request the backend-bound tag list
begins with the six machine-derived tags — application tag, file extension,
scan method, and the header-supplied states of the PML, SPN-feedback and
active-content toggles (the digest and verbose toggles are not recorded) —
followed by all caller-supplied tags, in that fixed order. -/
theorem C4_tag_order (filename scanMethod digestHdr pmlHdr spnHdr verboseHdr
    activeContentHdr : String) (customTags : List String) :
    requestTags filename scanMethod digestHdr pmlHdr spnHdr verboseHdr
        activeContentHdr customTags =
      machineTags filename scanMethod pmlHdr spnHdr activeContentHdr ++ customTags ∧
    (machineTags filename scanMethod pmlHdr spnHdr activeContentHdr).length = 6 ∧
    List.take 6 (requestTags filename scanMethod digestHdr pmlHdr spnHdr
        verboseHdr activeContentHdr customTags) =
      machineTags filename scanMethod pmlHdr spnHdr activeContentHdr ∧
    List.drop 6 (requestTags filename scanMethod digestHdr pmlHdr spnHdr
        verboseHdr activeContentHdr customTags) = customTags :=
  ⟨rfl, rfl, rfl, rfl⟩

/-- Claim C7: when both the external scanner address and the cloud API key
are empty, startup is a fatal configuration error — `main` exits with the
missing-key message, and the outcome carries no backend session and no
running server. -/
theorem C7_missing_credential_fatal (region : String) (useTLS : Bool) :
    mainStartup "" region "" useTLS =
      .fatalExit "FSS_API_KEY must be set when not using external scanner" := rfl

/-! ## Claims about the S3 ranged content provider -/

/-- Claim C5: every `ReadBytes` call issues exactly one underlying
byte-range fetch, built from the offset and length alone — the cached size
is never consulted, so a range past the cached size is still attempted.  A
store reply carrying a byte sequence (of any length, shorter than requested
included) is a success; the call errors exactly when the fetch or the body
transfer fails, carrying that cause. -/
theorem C5_read_bytes_contract (store : S3FetchCall → StoreResp)
    (bucket key : String) (size size2 offset length : Int) :
    (ReadBytes store ⟨bucket, key, size⟩ offset length).1 =
      [⟨bucket, key, mkRangeHeader offset length⟩] ∧
    ReadBytes store ⟨bucket, key, size⟩ offset length =
      ReadBytes store ⟨bucket, key, size2⟩ offset length ∧
    (∀ bs, store ⟨bucket, key, mkRangeHeader offset length⟩ = .body (.ok bs) →
      (ReadBytes store ⟨bucket, key, size⟩ offset length).2 = .ok bs) ∧
    (∀ e, store ⟨bucket, key, mkRangeHeader offset length⟩ = .fetchErr e →
      (ReadBytes store ⟨bucket, key, size⟩ offset length).2 = .error e) ∧
    (∀ e, store ⟨bucket, key, mkRangeHeader offset length⟩ = .body (.error e) →
      (ReadBytes store ⟨bucket, key, size⟩ offset length).2 =
        .error ("error reading S3 object body: " ++ e)) ∧
    (∀ bs, (ReadBytes store ⟨bucket, key, size⟩ offset length).2 = .ok bs →
      store ⟨bucket, key, mkRangeHeader offset length⟩ = .body (.ok bs)) := by
  refine ⟨rfl, rfl, ?_, ?_, ?_, ?_⟩
  · intro bs h
    simp [ReadBytes, h]
  · intro e h
    simp [ReadBytes, h]
  · intro e h
    simp [ReadBytes, h]
  · intro bs h
    cases hs : store ⟨bucket, key, mkRangeHeader offset length⟩ with
    | fetchErr e => simp [ReadBytes, hs] at h
    | body read =>
      cases read with
      | error e => simp [ReadBytes, hs] at h
      | ok bs2 =>
        simp [ReadBytes, hs] at h
        rw [h]

/-- A store whose single range fetch succeeds with a 2-byte body, shorter
than the 8 bytes requested in the witness below. -/
def shortReadStore : S3FetchCall → StoreResp := fun _ => .body (.ok [80, 75])

/-- Witness for C5: a fetch returning fewer bytes than requested (2 of 8) is
a success. -/
theorem C5_read_bytes_contract_witness :
    (ReadBytes shortReadStore ⟨"bkt", "obj.zip", 100⟩ 4 8).2 = .ok [80, 75] :=
  ((C5_read_bytes_contract shortReadStore "bkt" "obj.zip" 100 100 4 8).2.2.1)
    [80, 75] rfl

/-- Claim C6: provider construction resolves the size exactly once — it
fails when the config load or the metadata call fails or the store reports
no size, and on success the returned provider caches exactly the reported
size; every subsequent `DataSize` call returns that cached value without
error (`DataSize` takes no store handle, so no later operation can change
its answer). -/
theorem C6_size_cached_once (cfgLoad : Except String Unit) (bucket key : String)
    (attrResult : Except String (Option Int)) :
    (∀ r, NewS3ClientReader cfgLoad bucket key attrResult = .ok r →
      attrResult = .ok (some r.size) ∧ DataSize r = .ok r.size) ∧
    (cfgLoad = .ok () → attrResult = .ok none →
      NewS3ClientReader cfgLoad bucket key attrResult =
        .error "unable to get object size from S3") ∧
    (∀ e, cfgLoad = .ok () → attrResult = .error e →
      NewS3ClientReader cfgLoad bucket key attrResult = .error e) := by
  refine ⟨?_, ?_, ?_⟩
  · intro r h
    cases cfgLoad with
    | error e => simp [NewS3ClientReader] at h
    | ok u =>
      cases attrResult with
      | error e => simp [NewS3ClientReader] at h
      | ok o =>
        cases o with
        | none => simp [NewS3ClientReader] at h
        | some sz =>
          simp [NewS3ClientReader] at h
          subst h
          exact ⟨rfl, rfl⟩
  · intro h1 h2
    subst h1; subst h2; rfl
  · intro e h1 h2
    subst h1; subst h2; rfl

/-- Witness for C6: a provider built from a store reporting size 1024 caches
1024 and `DataSize` returns it without error. -/
theorem C6_size_cached_once_witness :
    DataSize ⟨"bkt", "obj.zip", 1024⟩ = .ok 1024 :=
  ((C6_size_cached_once (.ok ()) "bkt" "obj.zip" (.ok (some 1024))).1
    ⟨"bkt", "obj.zip", 1024⟩ rfl).2

/-! ## Claim about the health endpoint -/

/-- Claim C8: the health endpoint reports `"unhealthy"` with HTTP 503
exactly when the backend client handle is nil, and `"healthy"` with HTTP 200
together with the active endpoint descriptor in every other case. -/
theorem C8_health_status (now : String) (customTags : List String)
    (endpoint : String) :
    healthHandler true now customTags endpoint =
      (503, { status := "unhealthy", timestamp := now, customTags := customTags,
              apiEndpoint := endpoint }) ∧
    healthHandler false now customTags endpoint =
      (200, { status := "healthy", timestamp := now, customTags := customTags,
              apiEndpoint := endpoint }) :=
  ⟨rfl, rfl⟩

/-! ## Claim about toggle-state leakage across requests -/

theorem applyToggleHeaders_digest (c : ClientToggles) (h : ScanHeaders) :
    (applyToggleHeaders c h).digestDisabled =
      if h.digestHdr = "false" then true else c.digestDisabled := by
  simp only [applyToggleHeaders]
  split_ifs <;> rfl

theorem applyToggleHeaders_pml (c : ClientToggles) (h : ScanHeaders) :
    (applyToggleHeaders c h).pmlEnabled =
      if h.pmlHdr = "true" then true else c.pmlEnabled := by
  simp only [applyToggleHeaders]
  split_ifs <;> rfl

theorem applyToggleHeaders_feedback (c : ClientToggles) (h : ScanHeaders) :
    (applyToggleHeaders c h).feedbackEnabled =
      if h.spnHdr = "true" then true else c.feedbackEnabled := by
  simp only [applyToggleHeaders]
  split_ifs <;> rfl

theorem applyToggleHeaders_verbose (c : ClientToggles) (h : ScanHeaders) :
    (applyToggleHeaders c h).verboseEnabled =
      if h.verboseHdr = "true" then true else c.verboseEnabled := by
  simp only [applyToggleHeaders]
  split_ifs <;> rfl

theorem applyToggleHeaders_activeContent (c : ClientToggles) (h : ScanHeaders) :
    (applyToggleHeaders c h).activeContentEnabled =
      if h.activeContentHdr = "true" then true else c.activeContentEnabled := by
  simp only [applyToggleHeaders]
  split_ifs <;> rfl

/-- Claim C9: toggle mutations on the shared client are never reset between
requests — once PML, SPN feedback, verbose or active-content detection is
enabled, it stays enabled through every later request; once digest is
disabled it stays disabled; and digest ends up disabled only if it already
was or some request disabled it (no code path re-enables it). -/
theorem C9_toggle_state_leaks (c : ClientToggles) (hs : List ScanHeaders) :
    (c.pmlEnabled = true → (processScanSequence c hs).pmlEnabled = true) ∧
    (c.feedbackEnabled = true → (processScanSequence c hs).feedbackEnabled = true) ∧
    (c.verboseEnabled = true → (processScanSequence c hs).verboseEnabled = true) ∧
    (c.activeContentEnabled = true →
      (processScanSequence c hs).activeContentEnabled = true) ∧
    (c.digestDisabled = true → (processScanSequence c hs).digestDisabled = true) ∧
    ((processScanSequence c hs).digestDisabled = false →
      c.digestDisabled = false) := by
  induction hs generalizing c with
  | nil => exact ⟨id, id, id, id, id, id⟩
  | cons h t ih =>
    have step := ih (applyToggleHeaders c h)
    refine ⟨?_, ?_, ?_, ?_, ?_, ?_⟩
    · intro hc
      apply step.1
      rw [applyToggleHeaders_pml]
      split_ifs <;> simp [hc]
    · intro hc
      apply step.2.1
      rw [applyToggleHeaders_feedback]
      split_ifs <;> simp [hc]
    · intro hc
      apply step.2.2.1
      rw [applyToggleHeaders_verbose]
      split_ifs <;> simp [hc]
    · intro hc
      apply step.2.2.2.1
      rw [applyToggleHeaders_activeContent]
      split_ifs <;> simp [hc]
    · intro hc
      apply step.2.2.2.2.1
      rw [applyToggleHeaders_digest]
      split_ifs <;> simp [hc]
    · intro hfin
      have h2 := step.2.2.2.2.2 hfin
      rw [applyToggleHeaders_digest] at h2
      revert h2
      split_ifs <;> simp

/-- Witness for C9: a first request enables PML; two later requests that say
nothing about PML still observe it enabled on the shared client. -/
theorem C9_toggle_state_leaks_witness :
    (processScanSequence
      (applyToggleHeaders ⟨false, false, false, false, false⟩
        ⟨"", "true", "", "", ""⟩)
      [⟨"", "", "", "", ""⟩, ⟨"", "", "", "", ""⟩]).pmlEnabled = true :=
  (C9_toggle_state_leaks
    (applyToggleHeaders ⟨false, false, false, false, false⟩
      ⟨"", "true", "", "", ""⟩)
    [⟨"", "", "", "", ""⟩, ⟨"", "", "", "", ""⟩]).1 rfl

/-! ## Claim about S3 scan tagging -/

/-- Claim C10: for every S3 scan request the `"source:s3"` tag is appended
after all caller-supplied tags — the backend-bound list is the caller list
followed by `"source:s3"` — and when the caller supplies no tags (nil or
empty) the list is exactly `["source:s3"]`. -/
theorem C10_s3_source_tag_last (reqTags : Option (List String)) :
    s3ScanTags reqTags = reqTags.getD [] ++ ["source:s3"] ∧
    s3ScanTags none = ["source:s3"] ∧
    s3ScanTags (some []) = ["source:s3"] := by
  refine ⟨?_, rfl, rfl⟩
  cases reqTags <;> rfl
